import Mathlib

/-!
Shallow embedding of the `push-metrics` crate of learn-libra
(`src/secure/push-metrics/src/lib.rs`).

The crate has one component, `MetricsPusher`, with two functions:

* `start()` reads the environment variables `PUSH_METRICS_ENDPOINT` and
  `PUSH_METRICS_FREQUENCY_SECS`, decides whether the feature runs, and on
  success spawns one thread running `run`.
* `run(endpoint, freq)` loops forever: gather + encode the metrics, POST the
  buffer to the endpoint, log failures, sleep `freq` seconds, repeat.

The embedding records the observable effects (environment reads, leveled log
messages, thread spawn, HTTP POST, sleep) as explicit event traces, and takes
the results of the external collaborators (the text encoder and the HTTP
transport) from an oracle, so every control-flow path of the source is a
provable fact about these definitions.
-/

namespace PushMetrics

/-- Source constant `DEFAULT_PUSH_FREQUENCY_SECS: u64 = 15`. -/
def DEFAULT_PUSH_FREQUENCY_SECS : Nat := 15

/-- Process environment, an association list from variable names to values.
`Env.var` models `std::env::var`: the first binding of the name, `none` when
the variable is unset. -/
structure Env where
  vars : List (String × String)

/-- Lookup of one environment variable, as `std::env::var` observes it. -/
def Env.var (env : Env) (name : String) : Option String :=
  (env.vars.find? (fun p => p.1 == name)).map (fun p => p.2)

/-- Rust `str::parse::<u64>`: an optional leading plus sign, then one or more
ASCII digits, and the value must be below `2 ^ 64`. Anything else (empty
string, minus sign, non-digit characters, overflow) is a parse error. -/
def parseU64 (s : String) : Option Nat :=
  let digits : List Char :=
    match s.data with
    | '+' :: rest => rest
    | cs => cs
  if digits.isEmpty then none
  else if digits.all Char.isDigit then
    let n := digits.foldl (fun acc c => acc * 10 + (c.toNat - 48)) 0
    if n < 2 ^ 64 then some n else none
  else none

/-- Observable effects of `MetricsPusher::start`, in program order. -/
inductive StartEvent
  | envRead (name : String)
  | logInfo (msg : String)
  | logError (msg : String)
  | spawn (endpoint : String) (freq : Nat)
  deriving DecidableEq, Repr

/-- Recognizer for the `spawn` event. -/
def StartEvent.isSpawn : StartEvent → Bool
  | StartEvent.spawn _ _ => true
  | _ => false

/-- `MetricsPusher::start`. The first component models the returned
`Option<JoinHandle<()>>`: `some (endpoint, freq)` is a handle to the one
spawned thread that runs `run(endpoint, freq)`; the second component is the
trace of observable effects. Mirrors the source line by line: read
`PUSH_METRICS_ENDPOINT` (absent: info log, return `None`); read
`PUSH_METRICS_FREQUENCY_SECS` (absent: default 15; set but unparsable as
`u64`: error log, return `None`); then an info log and the spawn. -/
def start (env : Env) : Option (String × Nat) × List StartEvent :=
  match env.var "PUSH_METRICS_ENDPOINT" with
  | none =>
      (none,
       [StartEvent.envRead "PUSH_METRICS_ENDPOINT",
        StartEvent.logInfo "PUSH_METRICS_ENDPOINT env var is not set. Skipping sending metrics."])
  | some endpoint =>
      match env.var "PUSH_METRICS_FREQUENCY_SECS" with
      | some s =>
          match parseU64 s with
          | some i =>
              (some (endpoint, i),
               [StartEvent.envRead "PUSH_METRICS_ENDPOINT",
                StartEvent.envRead "PUSH_METRICS_FREQUENCY_SECS",
                StartEvent.logInfo ("Starting push metrics loop. Sending metrics to " ++
                  endpoint ++ " with a frequency of " ++ Nat.repr i ++ " seconds"),
                StartEvent.spawn endpoint i])
          | none =>
              (none,
               [StartEvent.envRead "PUSH_METRICS_ENDPOINT",
                StartEvent.envRead "PUSH_METRICS_FREQUENCY_SECS",
                StartEvent.logError ("Invalid value for PUSH_METRICS_FREQUENCY_SECS: " ++ s)])
      | none =>
          (some (endpoint, DEFAULT_PUSH_FREQUENCY_SECS),
           [StartEvent.envRead "PUSH_METRICS_ENDPOINT",
            StartEvent.envRead "PUSH_METRICS_FREQUENCY_SECS",
            StartEvent.logInfo ("Starting push metrics loop. Sending metrics to " ++
              endpoint ++ " with a frequency of " ++
              Nat.repr DEFAULT_PUSH_FREQUENCY_SECS ++ " seconds"),
            StartEvent.spawn endpoint DEFAULT_PUSH_FREQUENCY_SECS])

/-- Outcome of `TextEncoder::new().encode(&prometheus::gather(), &mut buffer)`
on one iteration: the encoded buffer bytes, or the error whose message the
source logs. -/
inductive EncodeResult
  | ok (buffer : List Nat)
  | err (msg : String)
  deriving DecidableEq, Repr

/-- Outcome of `ureq::post(..).timeout_connect(10_000).send_bytes(..)`, as the
source observes it through `response.synthetic_error()`: `ok` when no
synthetic (transport-level) error is present. -/
inductive SendResult
  | ok
  | syntheticError (msg : String)
  deriving DecidableEq, Repr

/-- External collaborators of the push loop: what gather-and-encode yields on
iteration `n`, and what the HTTP POST of a buffer to an endpoint yields on
iteration `n`. -/
structure World where
  encode : Nat → EncodeResult
  send : Nat → String → List Nat → SendResult

/-- Observable actions of one pass through the body of the `loop` in
`MetricsPusher::run`, in program order. `post` carries the connect timeout in
milliseconds (the source's fixed `10_000`). -/
inductive Action
  | gatherEncode
  | logError (msg : String)
  | post (endpoint : String) (buffer : List Nat) (timeoutConnectMs : Nat)
  | sleep (secs : Nat)
  deriving DecidableEq, Repr

/-- Recognizer for the `post` action. -/
def Action.isPost : Action → Bool
  | Action.post _ _ _ => true
  | _ => false

/-- Recognizer for the `sleep` action. -/
def Action.isSleep : Action → Bool
  | Action.sleep _ => true
  | _ => false

/-- Control flow at the end of one pass through the loop body. The source
body contains no `break`, `return`, panic or `?`, so every translated path
ends in `next`; the `leave` constructor exists so that the absence of any
loop-terminating path is a provable statement rather than a by-product of the
modelling. -/
inductive ControlFlow
  | next
  | leave (e : Option String)
  deriving DecidableEq, Repr

/-- One pass through the body of the `loop` in `MetricsPusher::run`, on
iteration `n`: encode into a fresh buffer; on encoder error, log it and fall
through to the sleep; otherwise POST the buffer with a 10-second connect
timeout and, if the response carries a synthetic error, log it with the
endpoint; finally sleep `freq` seconds. -/
def runIter (w : World) (endpoint : String) (freq : Nat) (n : Nat) :
    List Action × ControlFlow :=
  match w.encode n with
  | EncodeResult.err e =>
      ([Action.gatherEncode,
        Action.logError ("Failed to encode push metrics: " ++ e ++ "."),
        Action.sleep freq],
       ControlFlow.next)
  | EncodeResult.ok buffer =>
      match w.send n endpoint buffer with
      | SendResult.ok =>
          ([Action.gatherEncode,
            Action.post endpoint buffer 10000,
            Action.sleep freq],
           ControlFlow.next)
      | SendResult.syntheticError e =>
          ([Action.gatherEncode,
            Action.post endpoint buffer 10000,
            Action.logError ("Failed to push metrics to " ++ endpoint ++ ". Error: " ++ e),
            Action.sleep freq],
           ControlFlow.next)

/-- Concatenated action trace of the first `n` iterations of
`MetricsPusher::run`; total in `n` because no pass of the body leaves the
loop. -/
def runTrace (w : World) (endpoint : String) (freq : Nat) : Nat → List Action
  | 0 => []
  | n + 1 => runTrace w endpoint freq n ++ (runIter w endpoint freq n).1

/-! Concrete environments and worlds used to exercise the definitions. -/

/-- Environment with the endpoint set and the frequency variable set to `0`. -/
def envFreqZero : Env :=
  ⟨[("PUSH_METRICS_ENDPOINT", "http://pushgateway:9091/metrics/job/x"),
    ("PUSH_METRICS_FREQUENCY_SECS", "0")]⟩

/-- Environment with the endpoint set and an unparsable frequency value. -/
def envFreqAbc : Env :=
  ⟨[("PUSH_METRICS_ENDPOINT", "http://x"), ("PUSH_METRICS_FREQUENCY_SECS", "abc")]⟩

/-- Empty environment: neither variable is set. -/
def envEmpty : Env := ⟨[]⟩

/-- Environment with only the endpoint set. -/
def envEndpointOnly : Env :=
  ⟨[("PUSH_METRICS_ENDPOINT", "http://gw:9091/metrics/job/safety_rules")]⟩

/-- Environment with the endpoint set and frequency set to `30`. -/
def envFreq30 : Env :=
  ⟨[("PUSH_METRICS_ENDPOINT", "http://gw"), ("PUSH_METRICS_FREQUENCY_SECS", "30")]⟩

/-- Environment where only the frequency variable is set, to a malformed value. -/
def envFreqOnlyMalformed : Env := ⟨[("PUSH_METRICS_FREQUENCY_SECS", "abc")]⟩

/-- Environment whose endpoint value is the empty string, not a URL. -/
def envEmptyEndpoint : Env := ⟨[("PUSH_METRICS_ENDPOINT", "")]⟩

/-- World whose encoder fails on iteration 0 and succeeds afterwards. -/
def wEncodeFails : World :=
  ⟨fun n => if n = 0 then EncodeResult.err "boom" else EncodeResult.ok [1, 2],
   fun _ _ _ => SendResult.ok⟩

/-- World whose encoder always succeeds and whose transport always refuses. -/
def wSendFails : World :=
  ⟨fun _ => EncodeResult.ok [1, 2],
   fun _ _ _ => SendResult.syntheticError "Connection refused"⟩

/-! Theorems about configuration resolution (`MetricsPusher::start`). -/

/-- C1, counterexample: the string `0` is not a positive integer, yet with the
endpoint set and `PUSH_METRICS_FREQUENCY_SECS` set to `0`, `start()` does not
return `None`: `0` parses as the `u64` value `0`, so `start()` returns a
handle running the loop with frequency `0`. -/
theorem c1_counterexample :
    (start envFreqZero).1 = some ("http://pushgateway:9091/metrics/job/x", 0) ∧
    ¬ (start envFreqZero).1 = none := by decide

/-- C1, amended: for every environment in which `PUSH_METRICS_FREQUENCY_SECS`
is set to a string that does not parse as a `u64` (for example `abc`, `-5` or
the empty string — but not `0`, which parses as the value `0` and is
accepted), `start()` returns `None` and no background thread is spawned,
regardless of whether `PUSH_METRICS_ENDPOINT` is set. -/
theorem c1_unparsable_frequency_disables (env : Env) (s : String)
    (hs : env.var "PUSH_METRICS_FREQUENCY_SECS" = some s)
    (hp : parseU64 s = none) :
    (start env).1 = none ∧ ∀ e f, StartEvent.spawn e f ∉ (start env).2 := by
  unfold start
  cases henv : env.var "PUSH_METRICS_ENDPOINT" with
  | none => simp
  | some endpoint =>
    rw [hs]
    simp [hp]

/-- C1, witness: the amended statement at the concrete environment whose
frequency value is `abc`. -/
theorem c1_witness :
    (start envFreqAbc).1 = none ∧
    ∀ e f, StartEvent.spawn e f ∉ (start envFreqAbc).2 :=
  c1_unparsable_frequency_disables envFreqAbc "abc" (by decide) (by decide)

/-- C2: for every environment in which `PUSH_METRICS_ENDPOINT` is absent,
`start()` returns `None`, spawns no background thread, logs the informational
skip message, and logs no error. -/
theorem c2_endpoint_absent_skips (env : Env)
    (h : env.var "PUSH_METRICS_ENDPOINT" = none) :
    (start env).1 = none ∧
    (∀ e f, StartEvent.spawn e f ∉ (start env).2) ∧
    StartEvent.logInfo
      "PUSH_METRICS_ENDPOINT env var is not set. Skipping sending metrics." ∈
      (start env).2 ∧
    ∀ m, StartEvent.logError m ∉ (start env).2 := by
  unfold start
  rw [h]
  simp

/-- C2, witness: the statement at the empty environment. -/
theorem c2_witness :
    (start envEmpty).1 = none ∧
    (∀ e f, StartEvent.spawn e f ∉ (start envEmpty).2) ∧
    StartEvent.logInfo
      "PUSH_METRICS_ENDPOINT env var is not set. Skipping sending metrics." ∈
      (start envEmpty).2 ∧
    ∀ m, StartEvent.logError m ∉ (start envEmpty).2 :=
  c2_endpoint_absent_skips envEmpty (by decide)

/-- C3: for every environment in which the endpoint is set and
`PUSH_METRICS_FREQUENCY_SECS` is absent, the frequency handed to the push
loop is exactly 15 seconds. -/
theorem c3_default_frequency (env : Env) (endpoint : String)
    (he : env.var "PUSH_METRICS_ENDPOINT" = some endpoint)
    (hf : env.var "PUSH_METRICS_FREQUENCY_SECS" = none) :
    (start env).1 = some (endpoint, 15) ∧
    StartEvent.spawn endpoint 15 ∈ (start env).2 := by
  unfold start
  rw [he, hf]
  simp [DEFAULT_PUSH_FREQUENCY_SECS]

/-- C3, witness: the statement at an environment with only the endpoint set. -/
theorem c3_witness :
    (start envEndpointOnly).1 = some ("http://gw:9091/metrics/job/safety_rules", 15) ∧
    StartEvent.spawn "http://gw:9091/metrics/job/safety_rules" 15 ∈
      (start envEndpointOnly).2 :=
  c3_default_frequency envEndpointOnly "http://gw:9091/metrics/job/safety_rules"
    (by decide) (by decide)

/-! Theorems about the push loop (`MetricsPusher::run`). Shared facts about a
single pass of the body first: whatever the encode and send outcomes, a pass
starts with the gather-and-encode step, ends with the sleep of the configured
frequency, sleeps exactly once, and flows into the next pass. -/

theorem runIter_getLast (w : World) (endpoint : String) (freq n : Nat) :
    (runIter w endpoint freq n).1.getLast? = some (Action.sleep freq) := by
  rcases henc : w.encode n with buffer | e
  · rcases hsend : w.send n endpoint buffer with _ | e
    · simp [runIter, henc, hsend]
    · simp [runIter, henc, hsend]
  · simp [runIter, henc]

theorem runIter_head (w : World) (endpoint : String) (freq n : Nat) :
    (runIter w endpoint freq n).1.head? = some Action.gatherEncode := by
  rcases henc : w.encode n with buffer | e
  · rcases hsend : w.send n endpoint buffer with _ | e
    · simp [runIter, henc, hsend]
    · simp [runIter, henc, hsend]
  · simp [runIter, henc]

theorem runIter_control (w : World) (endpoint : String) (freq n : Nat) :
    (runIter w endpoint freq n).2 = ControlFlow.next := by
  rcases henc : w.encode n with buffer | e
  · rcases hsend : w.send n endpoint buffer with _ | e
    · simp [runIter, henc, hsend]
    · simp [runIter, henc, hsend]
  · simp [runIter, henc]

theorem runIter_sleepFilter (w : World) (endpoint : String) (freq n : Nat) :
    (runIter w endpoint freq n).1.filter Action.isSleep = [Action.sleep freq] := by
  rcases henc : w.encode n with buffer | e
  · rcases hsend : w.send n endpoint buffer with _ | e
    · simp [runIter, henc, hsend, List.filter, Action.isSleep]
    · simp [runIter, henc, hsend, List.filter, Action.isSleep]
  · simp [runIter, henc, List.filter, Action.isSleep]

/-- C4: in every iteration whose encode fails, an error carrying the encoder
message is logged, no HTTP POST happens in that iteration, the iteration goes
directly to the sleep, and the next iteration still runs its full cycle (its
trace begins with the gather-and-encode step, ends with the sleep, and is
appended to the run trace). -/
theorem c4_encode_failure_isolated (w : World) (endpoint : String) (freq : Nat)
    (n : Nat) (e : String) (h : w.encode n = EncodeResult.err e) :
    (runIter w endpoint freq n).1 =
      [Action.gatherEncode,
       Action.logError ("Failed to encode push metrics: " ++ e ++ "."),
       Action.sleep freq] ∧
    (∃ a b, Action.logError (a ++ e ++ b) ∈ (runIter w endpoint freq n).1) ∧
    (∀ ep buf t, Action.post ep buf t ∉ (runIter w endpoint freq n).1) ∧
    (runIter w endpoint freq n).1.getLast? = some (Action.sleep freq) ∧
    (runIter w endpoint freq (n + 1)).1.head? = some Action.gatherEncode ∧
    (runIter w endpoint freq (n + 1)).1.getLast? = some (Action.sleep freq) ∧
    runTrace w endpoint freq (n + 2) =
      runTrace w endpoint freq (n + 1) ++ (runIter w endpoint freq (n + 1)).1 := by
  have hiter : (runIter w endpoint freq n).1 =
      [Action.gatherEncode,
       Action.logError ("Failed to encode push metrics: " ++ e ++ "."),
       Action.sleep freq] := by
    unfold runIter
    rw [h]
  refine ⟨hiter, ⟨"Failed to encode push metrics: ", ".", by rw [hiter]; simp⟩,
    ?_, runIter_getLast w endpoint freq n, runIter_head w endpoint freq (n + 1),
    runIter_getLast w endpoint freq (n + 1), rfl⟩
  intro ep buf t
  rw [hiter]
  simp

/-- C4, witness: the statement at a world whose encoder fails on iteration 0
with message `boom`. -/
theorem c4_witness :
    (runIter wEncodeFails "http://x" 7 0).1 =
      [Action.gatherEncode,
       Action.logError ("Failed to encode push metrics: " ++ "boom" ++ "."),
       Action.sleep 7] ∧
    (∃ a b, Action.logError (a ++ "boom" ++ b) ∈ (runIter wEncodeFails "http://x" 7 0).1) ∧
    (∀ ep buf t, Action.post ep buf t ∉ (runIter wEncodeFails "http://x" 7 0).1) ∧
    (runIter wEncodeFails "http://x" 7 0).1.getLast? = some (Action.sleep 7) ∧
    (runIter wEncodeFails "http://x" 7 1).1.head? = some Action.gatherEncode ∧
    (runIter wEncodeFails "http://x" 7 1).1.getLast? = some (Action.sleep 7) ∧
    runTrace wEncodeFails "http://x" 7 2 =
      runTrace wEncodeFails "http://x" 7 1 ++ (runIter wEncodeFails "http://x" 7 1).1 :=
  c4_encode_failure_isolated wEncodeFails "http://x" 7 0 "boom" (by decide)

/-- C5: in every iteration whose HTTP POST comes back with a synthetic
(transport-level) error, an error message containing both the configured
endpoint and the underlying error text is logged, exactly one POST is
attempted in the iteration (no retry), and the loop goes on to the sleep and
to the next iteration. -/
theorem c5_transport_failure_isolated (w : World) (endpoint : String)
    (freq : Nat) (n : Nat) (buf : List Nat) (e : String)
    (henc : w.encode n = EncodeResult.ok buf)
    (hsend : w.send n endpoint buf = SendResult.syntheticError e) :
    (runIter w endpoint freq n).1 =
      [Action.gatherEncode,
       Action.post endpoint buf 10000,
       Action.logError ("Failed to push metrics to " ++ endpoint ++ ". Error: " ++ e),
       Action.sleep freq] ∧
    (∃ a b, Action.logError (a ++ endpoint ++ b ++ e) ∈ (runIter w endpoint freq n).1) ∧
    (runIter w endpoint freq n).1.filter Action.isPost =
      [Action.post endpoint buf 10000] ∧
    (runIter w endpoint freq n).1.getLast? = some (Action.sleep freq) ∧
    (runIter w endpoint freq (n + 1)).1.head? = some Action.gatherEncode := by
  have hiter : (runIter w endpoint freq n).1 =
      [Action.gatherEncode,
       Action.post endpoint buf 10000,
       Action.logError ("Failed to push metrics to " ++ endpoint ++ ". Error: " ++ e),
       Action.sleep freq] := by
    simp [runIter, henc, hsend]
  refine ⟨hiter, ⟨"Failed to push metrics to ", ". Error: ", by rw [hiter]; simp⟩,
    ?_, runIter_getLast w endpoint freq n, runIter_head w endpoint freq (n + 1)⟩
  rw [hiter]
  simp [List.filter, Action.isPost]

/-- C5, witness: the statement at a world whose transport always answers with
the synthetic error `Connection refused`. -/
theorem c5_witness :
    (runIter wSendFails "http://gw:9091" 3 0).1 =
      [Action.gatherEncode,
       Action.post "http://gw:9091" [1, 2] 10000,
       Action.logError ("Failed to push metrics to " ++ "http://gw:9091" ++
         ". Error: " ++ "Connection refused"),
       Action.sleep 3] ∧
    (∃ a b, Action.logError (a ++ "http://gw:9091" ++ b ++ "Connection refused") ∈
      (runIter wSendFails "http://gw:9091" 3 0).1) ∧
    (runIter wSendFails "http://gw:9091" 3 0).1.filter Action.isPost =
      [Action.post "http://gw:9091" [1, 2] 10000] ∧
    (runIter wSendFails "http://gw:9091" 3 0).1.getLast? = some (Action.sleep 3) ∧
    (runIter wSendFails "http://gw:9091" 3 1).1.head? = some Action.gatherEncode :=
  c5_transport_failure_isolated wSendFails "http://gw:9091" 3 0 [1, 2]
    "Connection refused" (by decide) (by decide)

/-- C6: every iteration — encode success, encode failure or send failure —
contains exactly one sleep, of exactly the configured frequency, as its last
action, after the send or skip point; the duration depends only on `freq` and
never on the iteration's outcome, since the statement holds for every world. -/
theorem c6_sleep_closes_every_iteration (w : World) (endpoint : String)
    (freq : Nat) (n : Nat) :
    (runIter w endpoint freq n).1.getLast? = some (Action.sleep freq) ∧
    (runIter w endpoint freq n).1.filter Action.isSleep = [Action.sleep freq] :=
  ⟨runIter_getLast w endpoint freq n, runIter_sleepFilter w endpoint freq n⟩

/-- C7: the loop never returns: every pass of the body, under every world and
configuration, ends in `next` — there is no input under which the body leaves
the loop — and the trace of the first `n + 1` iterations always extends the
trace of the first `n` with that pass's actions. -/
theorem c7_run_never_returns (w : World) (endpoint : String) (freq : Nat)
    (n : Nat) :
    (runIter w endpoint freq n).2 = ControlFlow.next ∧
    (∀ e, (runIter w endpoint freq n).2 ≠ ControlFlow.leave e) ∧
    runTrace w endpoint freq (n + 1) =
      runTrace w endpoint freq n ++ (runIter w endpoint freq n).1 :=
  ⟨runIter_control w endpoint freq n,
   fun e => by rw [runIter_control w endpoint freq n]; simp,
   rfl⟩

/-! Theorems about a successful configuration resolution. -/

/-- C8: for every environment in which the endpoint is set and the frequency
is absent (resolving to the default 15) or parses as a `u64`, `start()`
returns a handle carrying exactly that configuration, logs an informational
message containing the resolved endpoint and frequency, and spawns exactly
one background thread, running the push loop with that configuration. -/
theorem c8_success_logs_and_spawns_once (env : Env) (endpoint : String)
    (freq : Nat)
    (he : env.var "PUSH_METRICS_ENDPOINT" = some endpoint)
    (hf : (env.var "PUSH_METRICS_FREQUENCY_SECS" = none ∧
            freq = DEFAULT_PUSH_FREQUENCY_SECS) ∨
          (∃ s, env.var "PUSH_METRICS_FREQUENCY_SECS" = some s ∧
            parseU64 s = some freq)) :
    (start env).1 = some (endpoint, freq) ∧
    StartEvent.logInfo ("Starting push metrics loop. Sending metrics to " ++
      endpoint ++ " with a frequency of " ++ Nat.repr freq ++ " seconds") ∈
      (start env).2 ∧
    (start env).2.filter StartEvent.isSpawn = [StartEvent.spawn endpoint freq] := by
  rcases hf with ⟨hf, rfl⟩ | ⟨s, hs, hp⟩
  · have h1 : start env =
        (some (endpoint, DEFAULT_PUSH_FREQUENCY_SECS),
         [StartEvent.envRead "PUSH_METRICS_ENDPOINT",
          StartEvent.envRead "PUSH_METRICS_FREQUENCY_SECS",
          StartEvent.logInfo ("Starting push metrics loop. Sending metrics to " ++
            endpoint ++ " with a frequency of " ++
            Nat.repr DEFAULT_PUSH_FREQUENCY_SECS ++ " seconds"),
          StartEvent.spawn endpoint DEFAULT_PUSH_FREQUENCY_SECS]) := by
      unfold start
      rw [he, hf]
    rw [h1]
    exact ⟨rfl, by simp, rfl⟩
  · have h1 : start env =
        (some (endpoint, freq),
         [StartEvent.envRead "PUSH_METRICS_ENDPOINT",
          StartEvent.envRead "PUSH_METRICS_FREQUENCY_SECS",
          StartEvent.logInfo ("Starting push metrics loop. Sending metrics to " ++
            endpoint ++ " with a frequency of " ++ Nat.repr freq ++ " seconds"),
          StartEvent.spawn endpoint freq]) := by
      unfold start
      rw [he, hs]
      simp [hp]
    rw [h1]
    exact ⟨rfl, by simp, rfl⟩

/-- C8, witness: the statement at the environment resolving to endpoint
`http://gw` and frequency 30. -/
theorem c8_witness :
    (start envFreq30).1 = some ("http://gw", 30) ∧
    StartEvent.logInfo ("Starting push metrics loop. Sending metrics to " ++
      "http://gw" ++ " with a frequency of " ++ Nat.repr 30 ++ " seconds") ∈
      (start envFreq30).2 ∧
    (start envFreq30).2.filter StartEvent.isSpawn =
      [StartEvent.spawn "http://gw" 30] :=
  c8_success_logs_and_spawns_once envFreq30 "http://gw" 30 (by decide)
    (Or.inr ⟨"30", by decide, by decide⟩)

/-- C9 (implicit): when the endpoint variable is absent, `start()` decides
before the frequency variable is ever read — its event trace is exactly the
endpoint read followed by the informational skip message — so a malformed
frequency value in the same environment produces no frequency read, no error
log, and no validation at all. -/
theorem c9_endpoint_absent_frequency_unread (env : Env)
    (h : env.var "PUSH_METRICS_ENDPOINT" = none) :
    (start env).2 =
      [StartEvent.envRead "PUSH_METRICS_ENDPOINT",
       StartEvent.logInfo
         "PUSH_METRICS_ENDPOINT env var is not set. Skipping sending metrics."] ∧
    (start env).1 = none ∧
    StartEvent.envRead "PUSH_METRICS_FREQUENCY_SECS" ∉ (start env).2 ∧
    ∀ m, StartEvent.logError m ∉ (start env).2 := by
  have h1 : start env =
      (none,
       [StartEvent.envRead "PUSH_METRICS_ENDPOINT",
        StartEvent.logInfo
          "PUSH_METRICS_ENDPOINT env var is not set. Skipping sending metrics."]) := by
    unfold start
    rw [h]
  rw [h1]
  exact ⟨rfl, rfl, by decide, fun m => by simp⟩

/-- C9, witness: the statement at the environment where only the frequency
variable is set, to the malformed value `abc`. -/
theorem c9_witness :
    (start envFreqOnlyMalformed).2 =
      [StartEvent.envRead "PUSH_METRICS_ENDPOINT",
       StartEvent.logInfo
         "PUSH_METRICS_ENDPOINT env var is not set. Skipping sending metrics."] ∧
    (start envFreqOnlyMalformed).1 = none ∧
    StartEvent.envRead "PUSH_METRICS_FREQUENCY_SECS" ∉ (start envFreqOnlyMalformed).2 ∧
    ∀ m, StartEvent.logError m ∉ (start envFreqOnlyMalformed).2 :=
  c9_endpoint_absent_frequency_unread envFreqOnlyMalformed (by decide)

/-- C10 (implicit): the endpoint value is never validated as a URL: for every
string value of `PUSH_METRICS_ENDPOINT` — the empty string and non-URLs
included — with the frequency absent or parsing as a `u64`, `start()` returns
a handle carrying that exact string, spawns the loop with it, and every
successful encode in the loop POSTs to that exact string. -/
theorem c10_endpoint_accepted_verbatim (env : Env) (endpoint : String)
    (he : env.var "PUSH_METRICS_ENDPOINT" = some endpoint)
    (hf : env.var "PUSH_METRICS_FREQUENCY_SECS" = none ∨
          ∃ s f, env.var "PUSH_METRICS_FREQUENCY_SECS" = some s ∧
            parseU64 s = some f) :
    ∃ freq, (start env).1 = some (endpoint, freq) ∧
      StartEvent.spawn endpoint freq ∈ (start env).2 ∧
      ∀ w n buf, w.encode n = EncodeResult.ok buf →
        Action.post endpoint buf 10000 ∈ (runIter w endpoint freq n).1 := by
  have hpost : ∀ freq : Nat, ∀ w n buf, w.encode n = EncodeResult.ok buf →
      Action.post endpoint buf 10000 ∈ (runIter w endpoint freq n).1 := by
    intro freq w n buf hbuf
    rcases hsend : w.send n endpoint buf with _ | e
    · simp [runIter, hbuf, hsend]
    · simp [runIter, hbuf, hsend]
  rcases hf with hf | ⟨s, f, hs, hp⟩
  · have h1 : start env =
        (some (endpoint, DEFAULT_PUSH_FREQUENCY_SECS),
         [StartEvent.envRead "PUSH_METRICS_ENDPOINT",
          StartEvent.envRead "PUSH_METRICS_FREQUENCY_SECS",
          StartEvent.logInfo ("Starting push metrics loop. Sending metrics to " ++
            endpoint ++ " with a frequency of " ++
            Nat.repr DEFAULT_PUSH_FREQUENCY_SECS ++ " seconds"),
          StartEvent.spawn endpoint DEFAULT_PUSH_FREQUENCY_SECS]) := by
      unfold start
      rw [he, hf]
    refine ⟨DEFAULT_PUSH_FREQUENCY_SECS, ?_, ?_, hpost DEFAULT_PUSH_FREQUENCY_SECS⟩
    · rw [h1]
    · rw [h1]
      simp
  · have h1 : start env =
        (some (endpoint, f),
         [StartEvent.envRead "PUSH_METRICS_ENDPOINT",
          StartEvent.envRead "PUSH_METRICS_FREQUENCY_SECS",
          StartEvent.logInfo ("Starting push metrics loop. Sending metrics to " ++
            endpoint ++ " with a frequency of " ++ Nat.repr f ++ " seconds"),
          StartEvent.spawn endpoint f]) := by
      unfold start
      rw [he, hs]
      simp [hp]
    refine ⟨f, ?_, ?_, hpost f⟩
    · rw [h1]
    · rw [h1]
      simp

/-- C10, witness: the statement at the environment whose endpoint value is
the empty string — not a URL in any sense — which is still accepted. -/
theorem c10_witness :
    ∃ freq, (start envEmptyEndpoint).1 = some ("", freq) ∧
      StartEvent.spawn "" freq ∈ (start envEmptyEndpoint).2 ∧
      ∀ w n buf, w.encode n = EncodeResult.ok buf →
        Action.post "" buf 10000 ∈ (runIter w "" freq n).1 :=
  c10_endpoint_accepted_verbatim envEmptyEndpoint "" (by decide)
    (Or.inl (by decide))

end PushMetrics
